import Mathlib

/-!
Verification of the command-line assistant front-end (src/assistant.js)
against its natural-language specification.

The embedding below is a shallow translation of `assistant.js` into Lean:

* JavaScript string primitives used by the dispatcher (`line[i]`,
  `line.substr(3)`, `line.split(' ')`, `line.trim()` truthiness, `parseInt`,
  `JSON.stringify` of the choice answer) are modelled as executable Lean
  functions on `String`/`List Char`.
* `Assistant.prototype._onLine` (lines 227-258) is modelled by
  `onLineDispatch`, a pure classification of the input line into the branch
  the if/else-if chain selects, carrying the exact argument strings the
  source passes on.
* The promise pipeline wrapped around the dispatch,
  `Q.try(...).then(() => rl.prompt()).done()`, is modelled by
  `onLineFinish`: `then` runs its callback only on fulfilled settlement, and
  Q's `done()` rethrows a rejection as an uncaught exception (there is no
  catch handler in the chain), which terminates the Node process.
* Handlers that start deferred collaborator calls (`_runMessagingCommand`,
  `_testLog`) are modelled by `HandlerRun`: the list of deferred calls the
  handler starts and which of them (if any) it returns to the session loop.
* `_runAppCommand` and `_runDeviceCommand` are modelled as functions from
  the collaborator state (app list, factory settlement, url query parser)
  and the assistant's OAuth fields to the effects they produce; the OAuth
  fields `_oauthKind`/`_oauthSession` (initialised `null`/`{}` in the
  constructor, lines 80-81) form `OAuthState`.

JavaScript `undefined` for possibly-missing strings is modelled with
`Option String` (`none` = `undefined`/`null`), and string concatenation with
`undefined` follows JS by printing "undefined".
-/

/-- JS whitespace recognised by `String.prototype.trim` / `parseInt`
(ASCII range; the source is only ever fed terminal input). -/
def jsWhitespace (c : Char) : Bool :=
  c == ' ' || c == '\t' || c == '\n' || c == '\r' || c == '\x0b' || c == '\x0c'

/-- JS `s[i]`: the i-th character, or `undefined` (`none`) past the end. -/
def charAt (s : String) (i : Nat) : Option Char :=
  s.data.get? i

/-- JS `s.substr(i)`: the suffix from character position i. -/
def substrFrom (s : String) (i : Nat) : String :=
  String.mk (s.data.drop i)

/-- JS string concatenation with a possibly-`undefined` operand. -/
def jsOptStr : Option String → String
  | some s => s
  | none => "undefined"

/-- JS string concatenation with a possibly-`undefined` character. -/
def jsCharUndef : Option Char → String
  | some c => String.mk [c]
  | none => "undefined"

def splitSpaceAux (cur : List Char) : List Char → List String
  | [] => [String.mk cur.reverse]
  | c :: rest =>
    if c = ' ' then String.mk cur.reverse :: splitSpaceAux [] rest
    else splitSpaceAux (c :: cur) rest

/-- JS `s.split(' ')`: split on every single space character (consecutive
spaces yield empty fields; the result is never empty). -/
def splitSpace (s : String) : List String :=
  splitSpaceAux [] s.data

/-- A JS number as produced by `parseInt`: an integer or NaN.  (Integers of
magnitude at least 2^53 are not represented exactly by JS doubles; the
theorems below that involve `parseIntJS` restrict to the exact range.) -/
inductive JSNum
  | num (n : Int)
  | nan
deriving DecidableEq

def digitVal (c : Char) : Nat := c.toNat - '0'.toNat

/-- JS `parseInt(s)` on decimal input: skip leading whitespace, read an
optional sign, then the longest prefix of decimal digits; NaN when there is
no digit.  (The hexadecimal `0x` form of `parseInt` is not modelled; no
claim exercises it.) -/
def parseIntJS (s : String) : JSNum :=
  let l := s.data.dropWhile jsWhitespace
  let sgn : Bool × List Char :=
    match l with
    | '-' :: rest => (true, rest)
    | '+' :: rest => (false, rest)
    | _ => (false, l)
  let ds := sgn.2.takeWhile Char.isDigit
  if ds = [] then JSNum.nan
  else
    let n : Nat := ds.foldl (fun a c => 10 * a + digitVal c) 0
    JSNum.num (if sgn.1 then -(n : Int) else (n : Int))

/-- `JSON.stringify({ answer: { type: "Choice", value: n }})` for an integer
number n (source line 239). -/
def choiceJSON (n : Int) : String :=
  "\x7b\"answer\":\x7b\"type\":\"Choice\",\"value\":" ++ toString n ++ "\x7d\x7d"

/-- The same serialization applied to the result of `parseInt`:
`JSON.stringify(NaN)` is `"null"`. -/
def jsonStringifyChoice : JSNum → String
  | JSNum.num n => choiceJSON n
  | JSNum.nan => "\x7b\"answer\":\x7b\"type\":\"Choice\",\"value\":null\x7d\x7d"

/-- The branch selected by `_onLine`'s if/else-if chain (lines 229-254),
with the exact argument each branch passes on. -/
inductive Dispatch
  | quit
  | help
  | handleParsedCommand (s : String)
  | handleThingTalk (s : String)
  | appCommand (args : List String)
  | deviceCommand (args : List String)
  | messagingCommand (args : List String)
  | permissionCommand (args : List String)
  | testLog
  | unknownCommand (c : Option Char)
  | handleCommand (s : String)
  | nop
deriving DecidableEq

/-- `Assistant.prototype._onLine`, lines 227-254: the classification of one
terminal line.  `line[0] === '\\'` selects the meta-command chain on the
second character; otherwise a line with `line.trim()` truthy goes verbatim
to `this._conversation.handleCommand(line)`, and anything else does
nothing.  The dead condition `line === 'h'` of the help branch (line 232)
is kept exactly as written. -/
def onLineDispatch (line : String) : Dispatch :=
  if charAt line 0 = some '\\' then
    if charAt line 1 = some 'q' then Dispatch.quit
    else if charAt line 1 = some '?' ∨ line = "h" then Dispatch.help
    else if charAt line 1 = some 'r' then Dispatch.handleParsedCommand (substrFrom line 3)
    else if charAt line 1 = some 't' then Dispatch.handleThingTalk (substrFrom line 3)
    else if charAt line 1 = some 'c' then
      Dispatch.handleParsedCommand (jsonStringifyChoice (parseIntJS (substrFrom line 3)))
    else if charAt line 1 = some 'a' then Dispatch.appCommand (splitSpace (substrFrom line 3))
    else if charAt line 1 = some 'd' then Dispatch.deviceCommand (splitSpace (substrFrom line 3))
    else if charAt line 1 = some 'm' then Dispatch.messagingCommand (splitSpace (substrFrom line 3))
    else if charAt line 1 = some 'p' then Dispatch.permissionCommand (splitSpace (substrFrom line 3))
    else if charAt line 1 = some 'l' then Dispatch.testLog
    else Dispatch.unknownCommand (charAt line 1)
  else if line.data.all jsWhitespace then Dispatch.nop
  else Dispatch.handleCommand line

/-- The branches of the escape-marker chain: everything `_onLine` can select
for a line whose first character is the escape marker (including the
UnknownCommand report for an unrecognised second character). -/
def isMetaBranch : Dispatch → Bool
  | Dispatch.handleCommand _ => false
  | Dispatch.nop => false
  | _ => true

/-- The message printed by the fall-through branch (line 251):
`console.log('Unknown command ' + line[1])`. -/
def unknownCommandMessage (c : Option Char) : String :=
  "Unknown command " ++ jsCharUndef c

/-- The static usage text printed by `_help` (lines 104-123), one entry per
`console.log`. -/
def helpLines : List String :=
  [ "Available commands:",
    "\\q : quit",
    "\\r <json> : send json to Almond",
    "\\c <number> : make a choice",
    "\\t <code> : send ThingTalk to Almond",
    "\\m self : print own messaging identities",
    "\\m identity <identity> : lookup messaging identity, save to contacts",
    "\\m search <name> : list contacts by name",
    "\\a list : list apps",
    "\\a stop <uuid> : stop app",
    "\\d list : list devices",
    "\\d start-oauth <kind> : start oauth",
    "\\d complete-oauth <url> : finish oauth",
    "\\p list : list permissions",
    "\\p revoke <uuid> : revoke permissions",
    "\\l: test the log system",
    "\\? or \\h : show this help",
    "Any other command is interpreted as an English sentence and sent to Almond" ]

/-- Settlement of the value produced by the selected handler, as seen by the
promise chain of `_onLine`: `fulfilled` when the handler returned normally
(a plain value, `undefined`, or a deferred that later resolved);
`rejected e` when the handler threw synchronously (captured by `Q.try`) or
returned a deferred that was rejected. -/
inductive Settlement
  | fulfilled
  | rejected (e : String)
deriving DecidableEq

/-- What the session loop does once the current line's chain settles. -/
structure OnLineOutcome where
  promptRedrawn : Bool
  errorPrinted : Bool
  processTerminated : Bool
deriving DecidableEq

/-- The tail of `_onLine` (lines 228 and 255-257):
`Q.try(() => ...).then(() => this._rl.prompt()).done()`.
`then` with no rejection handler propagates a rejection past the prompt
callback, and `done()` rethrows an unhandled rejection as an uncaught
exception, which terminates the Node process; there is no catch handler
anywhere in the chain and nothing is printed by the loop itself on
failure. -/
def onLineFinish : Settlement → OnLineOutcome
  | Settlement.fulfilled => { promptRedrawn := true, errorPrinted := false, processTerminated := false }
  | Settlement.rejected _ => { promptRedrawn := false, errorPrinted := false, processTerminated := true }

/-- A value stored or compared by the fixed diagnostic queries. -/
inductive JVal
  | str (s : String)
  | int (n : Int)
deriving DecidableEq

/-- One `{name, op, value}` filter record of a diagnostic query. -/
structure IbaseFilter where
  name : String
  op : String
  value : JVal
deriving DecidableEq

/-- A deferred collaborator call started by a handler. -/
inductive AsyncCall
  | getAccountForIdentity (id : Option String)
  | searchAccountByName (name : Option String)
  | ibaseQuery (cols : List String) (filters : List IbaseFilter)
  | ibaseGetCount (filters : List IbaseFilter)
  | ibaseGetMax (col : String) (filters : List IbaseFilter)
  | ibaseGetMin (col : String) (filters : List IbaseFilter)
  | ibaseGetSum (col : String) (filters : List IbaseFilter)
  | ibaseGetAvg (col : String) (filters : List IbaseFilter)
  | ibaseGetArgmax (cols : List String) (col : String) (filters : List IbaseFilter)
  | ibaseGetArgmin (cols : List String) (col : String) (filters : List IbaseFilter)
deriving DecidableEq

/-- What one handler invocation does with deferred collaborator calls:
`spawned` lists the deferred calls it starts (each with a `.then` printing
its result), and `returnedIdx` points at the one whose deferred the handler
returns to the session loop (`none` when the handler returns
`undefined`). -/
structure HandlerRun where
  spawned : List AsyncCall
  returnedIdx : Option Nat
deriving DecidableEq

/-- The deferred result the handler hands back to the session loop. -/
def returnedOp (h : HandlerRun) : Option AsyncCall :=
  h.returnedIdx.bind fun i => h.spawned.get? i

/-- The deferred calls of the handler still unsettled at the instant the
session loop is allowed to redraw the prompt: the loop waits only on the
value the handler returned, so the returned call (if any) has settled by
then and every other spawned call may still be in flight. -/
def unsettledAtPrompt (h : HandlerRun) : List AsyncCall :=
  match h.returnedIdx with
  | none => h.spawned
  | some i => h.spawned.eraseIdx i

/-- Restatement of the specification's phrase "the prompt always appears
after the full output of the current command": no spawned call of the
handler is still unsettled when the prompt is redrawn. -/
abbrev promptAfterFullOutput (h : HandlerRun) : Prop :=
  unsettledAtPrompt h = []

/-- Restatement of the specification's phrase "at most one PendingOperation
exists at any time" for one handler invocation: it never has more than one
deferred operation in flight. -/
abbrev atMostOnePendingOp (h : HandlerRun) : Prop :=
  h.spawned.length ≤ 1

/-- `Assistant.prototype._testLog` (lines 191-216): eight deferred queries
against `this._engine.ibase`, each followed by a `console.log` of its
result; the method itself returns `undefined`. -/
def _testLog : HandlerRun :=
  { spawned :=
      [ AsyncCall.ibaseQuery ["wind_speed", "location"] [⟨"weather", "=", JVal.str "Partly cloud"⟩],
        AsyncCall.ibaseGetCount [⟨"wind_speed", ">", JVal.int 1⟩],
        AsyncCall.ibaseGetMax "wind_speed" [],
        AsyncCall.ibaseGetMin "wind_speed" [],
        AsyncCall.ibaseGetSum "wind_speed" [],
        AsyncCall.ibaseGetAvg "wind_speed" [],
        AsyncCall.ibaseGetArgmax ["location", "weather"] "wind_speed" [],
        AsyncCall.ibaseGetArgmin ["location", "weather"] "wind_speed" [] ],
    returnedIdx := none }

/-- `Assistant.prototype._runMessagingCommand` (lines 135-149): `self`
prints synchronously and returns `undefined`; `identity` and `search`
return the deferred of their single collaborator call. -/
def _runMessagingCommand (cmd param : Option String) : HandlerRun :=
  if cmd = some "self" then { spawned := [], returnedIdx := none }
  else if cmd = some "identity" then
    { spawned := [AsyncCall.getAccountForIdentity param], returnedIdx := some 0 }
  else if cmd = some "search" then
    { spawned := [AsyncCall.searchAccountByName param], returnedIdx := some 0 }
  else { spawned := [], returnedIdx := none }

/-- An app record as listed by the app manager. -/
structure AppRec where
  uniqueId : String
  name : String
  description : String
deriving DecidableEq

/-- An observable effect of `_runAppCommand`. -/
inductive AppEffect
  | printLine (s : String)
  | removeApp (a : AppRec)
deriving DecidableEq

/-- `this._engine.apps.getApp(id)`: lookup by unique id, `undefined` when no
app matches. -/
def getApp (apps : List AppRec) (id : Option String) : Option AppRec :=
  apps.find? fun a => decide (some a.uniqueId = id)

/-- `Assistant.prototype._runAppCommand` (lines 151-164), as the list of
effects it performs against the app manager and the terminal. -/
def _runAppCommand (apps : List AppRec) (cmd param : Option String) : List AppEffect :=
  if cmd = some "list" then
    apps.map fun a => AppEffect.printLine ("- " ++ a.uniqueId ++ " " ++ a.name ++ ": " ++ a.description)
  else if cmd = some "stop" then
    match getApp apps param with
    | none => [AppEffect.printLine ("No app with ID " ++ jsOptStr param)]
    | some a => [AppEffect.removeApp a]
  else []

/-- The opaque key-value session mapping threaded between the two OAuth
phases (`{}` in the constructor). -/
abbrev OAuthSession := List (String × String)

/-- The OAuth pairing fields of the assistant: `this._oauthKind` and
`this._oauthSession`. -/
structure OAuthState where
  oauthKind : Option String
  oauthSession : OAuthSession
deriving DecidableEq

/-- The constructor's initialisation (lines 80-81):
`this._oauthKind = null; this._oauthSession = {};`. -/
def initialOAuthState : OAuthState :=
  { oauthKind := none, oauthSession := [] }

/-- The synthetic inbound-request record built by the `complete-oauth`
branch (lines 178-186). -/
structure OAuthReq where
  httpVersion : String
  headers : List String
  rawHeaders : List String
  method : String
  url : String
  query : List (String × String)
  session : OAuthSession
deriving DecidableEq

/-- A device record as listed by the device manager. -/
structure DeviceRec where
  uniqueId : String
  kind : String
  name : String
  description : String
deriving DecidableEq

/-- An observable effect of `_runDeviceCommand`: a terminal line, or a call
into `this._engine.devices.factory.runOAuth2(kind, req)` (`req = none`
models the `null` second argument of phase 1). -/
inductive DeviceEffect
  | printLine (s : String)
  | factoryCall (kind : Option String) (req : Option OAuthReq)
deriving DecidableEq

/-- The collaborators `_runDeviceCommand` interacts with: the device list,
the settlement of the phase-1 `runOAuth2(kind, null)` call, the settlement
of the phase-2 call, and `Url.parse(url, true).query` as an uninterpreted
query-string parser. -/
structure DeviceCollab where
  devices : List DeviceRec
  startRes : Except String (String × OAuthSession)
  completeRes : Settlement
  upq : String → List (String × String)

/-- `Assistant.prototype._runDeviceCommand` (lines 166-189).  Returns the
updated OAuth fields, the effects performed, and the settlement of the
value the handler returns to the session loop.  Faithful points: the
assignment `this._oauthKind = param` (line 172) happens before the phase-1
factory call, unconditionally; `this._oauthSession` is assigned only in the
`.then` of a fulfilled phase-1 call (line 174); the phase-2 request record
carries method `'GET'`, the parsed query of the supplied url, and the
stored session verbatim (lines 178-186), and the phase-2 call uses the
stored `this._oauthKind` (line 187). -/
def _runDeviceCommand (dc : DeviceCollab) (st : OAuthState) (cmd param : Option String) :
    OAuthState × List DeviceEffect × Settlement :=
  if cmd = some "list" then
    (st,
     dc.devices.map (fun d =>
       DeviceEffect.printLine ("- " ++ d.uniqueId ++ " (" ++ d.kind ++ ") " ++ d.name ++ ": " ++ d.description)),
     Settlement.fulfilled)
  else if cmd = some "start-oauth" ∨ cmd = some "start-oauth2" then
    let st1 : OAuthState := { st with oauthKind := param }
    match dc.startRes with
    | Except.ok (redirect, sess) =>
      ({ st1 with oauthSession := sess },
       [DeviceEffect.factoryCall param none, DeviceEffect.printLine redirect],
       Settlement.fulfilled)
    | Except.error e =>
      (st1, [DeviceEffect.factoryCall param none], Settlement.rejected e)
  else if cmd = some "complete-oauth" ∨ cmd = some "complete-oauth2" then
    let req : OAuthReq :=
      { httpVersion := "1.0", headers := [], rawHeaders := [], method := "GET",
        url := jsOptStr param, query := dc.upq (jsOptStr param), session := st.oauthSession }
    (st, [DeviceEffect.factoryCall st.oauthKind (some req)], dc.completeRes)
  else
    (st, [], Settlement.fulfilled)

/-- Whether a list of device-command effects contains any terminal print
(used to state that a failed phase 1 reports nothing). -/
def printsReport (effs : List DeviceEffect) : Bool :=
  effs.any fun e =>
    match e with
    | DeviceEffect.printLine _ => true
    | _ => false

/-- A device-collaborator instance whose phase-1 call fails. -/
def dcFail : DeviceCollab :=
  { devices := [], startRes := Except.error "network failure",
    completeRes := Settlement.fulfilled, upq := fun _ => [] }

/-- A device-collaborator instance whose phase-1 call succeeds with a fixed
redirect url and session mapping. -/
def dcOk : DeviceCollab :=
  { devices := [],
    startRes := Except.ok ("https://twitter.example/authorize", [("oauth2-state", "xyz")]),
    completeRes := Settlement.fulfilled, upq := fun _ => [] }

section ClaimTheorems

/-- Helper: the head of an all-whitespace character list is whitespace. -/
theorem all_ws_head (l : List Char) (h : l.all jsWhitespace = true) (c : Char)
    (hc : l.get? 0 = some c) : jsWhitespace c = true := by
  cases l with
  | nil => simp at hc
  | cons a t =>
    simp only [List.get?] at hc
    injection hc with hc
    subst hc
    simp only [List.all_cons, Bool.and_eq_true] at h
    exact h.1

/-- Claim C1 is false on the code (counterexample): the line `\l` selects
the diagnostic handler, which starts eight deferred queries and returns
`undefined`, so more than one operation is in flight at once and the
prompt is redrawn while all eight are still unsettled — their output
lands after the prompt, interleaved with the next command. -/
theorem c1_counterexample :
    onLineDispatch "\\l" = Dispatch.testLog ∧
    ¬ atMostOnePendingOp _testLog ∧
    ¬ promptAfterFullOutput _testLog ∧
    _testLog.returnedIdx = none := by
  decide

/-- Claim C1 as amended: the session loop waits only on the value the
handler returns before re-prompting.  Handlers that return their deferred
(messaging `identity`/`search`) have no operation left unsettled at the
prompt, and the prompt is redrawn exactly on fulfilled settlement (never
on rejection); but the diagnostic handler leaves all eight of its spawned
queries unsettled at the prompt. -/
theorem c1_amended :
    (∀ p, unsettledAtPrompt (_runMessagingCommand (some "identity") p) = []) ∧
    (∀ p, unsettledAtPrompt (_runMessagingCommand (some "search") p) = []) ∧
    unsettledAtPrompt _testLog = _testLog.spawned ∧
    _testLog.spawned.length = 8 ∧
    (∀ e, (onLineFinish (Settlement.rejected e)).promptRedrawn = false) ∧
    (onLineFinish Settlement.fulfilled).promptRedrawn = true :=
  ⟨fun _ => rfl, fun _ => rfl, rfl, rfl, fun _ => rfl, rfl⟩

/-- Claim C2 is false on the code (counterexample): a rejected handler at
the session-loop boundary prints no terminal message, does not redraw the
prompt, and terminates the process (the chain
`Q.try(...).then(prompt).done()` has no catch handler and `done()`
rethrows), so the read-line loop does end because of a handler failure. -/
theorem c2_counterexample :
    (onLineFinish (Settlement.rejected "handler failure")).errorPrinted = false ∧
    (onLineFinish (Settlement.rejected "handler failure")).processTerminated = true ∧
    (onLineFinish (Settlement.rejected "handler failure")).promptRedrawn = false := by
  decide

/-- Claim C2 as amended: handler failures are not caught at the session
loop; every rejection terminates the process with nothing printed by the
loop and no prompt redraw, while fulfilled settlement redraws the prompt
and continues. -/
theorem c2_amended (e : String) :
    onLineFinish (Settlement.rejected e) =
      { promptRedrawn := false, errorPrinted := false, processTerminated := true } ∧
    onLineFinish Settlement.fulfilled =
      { promptRedrawn := true, errorPrinted := false, processTerminated := false } :=
  ⟨rfl, rfl⟩

/-- Claim C3 is false on the code (counterexample): a failed
`start-oauth com.twitter` from the idle state leaves `_oauthKind` equal to
`"com.twitter"`, not its previous value `null` — the kind is mutated
merely by starting phase 1 — and the coordinator prints no
`OAuthInitiationError` report: the rejection simply propagates. -/
theorem c3_counterexample :
    (_runDeviceCommand dcFail initialOAuthState (some "start-oauth") (some "com.twitter")).1.oauthKind
        ≠ initialOAuthState.oauthKind ∧
    printsReport
      (_runDeviceCommand dcFail initialOAuthState (some "start-oauth") (some "com.twitter")).2.1
        = false ∧
    (_runDeviceCommand dcFail initialOAuthState (some "start-oauth") (some "com.twitter")).2.2
        = Settlement.rejected "network failure" := by
  decide

/-- Claim C3 as amended: when the phase-1 initiation call fails, the stored
session is unchanged but the stored kind has already been overwritten with
the requested kind (the assignment precedes the call); the only effect is
the factory call itself — no report is printed — and the rejection
propagates to the session loop. -/
theorem c3_amended (dc : DeviceCollab) (st : OAuthState) (param : Option String) (e : String)
    (h : dc.startRes = Except.error e) :
    (_runDeviceCommand dc st (some "start-oauth") param).1
        = { oauthKind := param, oauthSession := st.oauthSession } ∧
    (_runDeviceCommand dc st (some "start-oauth") param).2.1
        = [DeviceEffect.factoryCall param none] ∧
    (_runDeviceCommand dc st (some "start-oauth") param).2.2 = Settlement.rejected e := by
  simp [_runDeviceCommand, h]

/-- Witness for the amended C3 at a concrete input. -/
theorem c3_witness :
    (_runDeviceCommand dcFail initialOAuthState (some "start-oauth") (some "com.twitter")).1
        = { oauthKind := some "com.twitter", oauthSession := [] } ∧
    (_runDeviceCommand dcFail initialOAuthState (some "start-oauth") (some "com.twitter")).2.1
        = [DeviceEffect.factoryCall (some "com.twitter") none] ∧
    (_runDeviceCommand dcFail initialOAuthState (some "start-oauth") (some "com.twitter")).2.2
        = Settlement.rejected "network failure" :=
  c3_amended dcFail initialOAuthState (some "com.twitter") "network failure" rfl

/-- Claim C4 is false on the code (counterexample): the diagnostic handler
`_testLog` starts eight deferred queries but returns no pending operation
to the session loop (it returns `undefined`). -/
theorem c4_counterexample :
    _testLog.spawned.length = 8 ∧ returnedOp _testLog = none := by
  decide

/-- Claim C4 as amended: the messaging `identity` and `search` handlers do
return the deferred of their collaborator call to the session loop, but
the diagnostic handler returns nothing while having started its battery
of eight deferred queries. -/
theorem c4_amended :
    (∀ p, returnedOp (_runMessagingCommand (some "identity") p)
        = some (AsyncCall.getAccountForIdentity p)) ∧
    (∀ p, returnedOp (_runMessagingCommand (some "search") p)
        = some (AsyncCall.searchAccountByName p)) ∧
    returnedOp _testLog = none ∧
    _testLog.spawned.length = 8 :=
  ⟨fun _ => rfl, fun _ => rfl, rfl, rfl⟩

/-- Claim C5: after a successful `start-oauth kind` that returned session
`sess`, a `complete-oauth url` calls the factory with the same `kind`
recorded in phase 1 and a synthetic request whose method is `GET`, whose
query is the parsed query of the supplied url, and whose session is
exactly `sess`, replayed without interpretation. -/
theorem c5_holds (dc1 dc2 : DeviceCollab) (st : OAuthState) (kind redirect url : String)
    (sess : OAuthSession) (h : dc1.startRes = Except.ok (redirect, sess)) :
    (_runDeviceCommand dc2 (_runDeviceCommand dc1 st (some "start-oauth") (some kind)).1
        (some "complete-oauth") (some url)).2.1 =
      [DeviceEffect.factoryCall (some kind)
        (some { httpVersion := "1.0", headers := [], rawHeaders := [], method := "GET",
                url := url, query := dc2.upq url, session := sess })] := by
  simp [_runDeviceCommand, h, jsOptStr]

/-- Witness for C5 at a concrete input. -/
theorem c5_witness :
    (_runDeviceCommand dcOk
        (_runDeviceCommand dcOk initialOAuthState (some "start-oauth") (some "com.twitter")).1
        (some "complete-oauth") (some "http://127.0.0.1:3000/done?code=abc")).2.1 =
      [DeviceEffect.factoryCall (some "com.twitter")
        (some { httpVersion := "1.0", headers := [], rawHeaders := [], method := "GET",
                url := "http://127.0.0.1:3000/done?code=abc", query := [],
                session := [("oauth2-state", "xyz")] })] :=
  c5_holds dcOk dcOk initialOAuthState "com.twitter" "https://twitter.example/authorize"
    "http://127.0.0.1:3000/done?code=abc" [("oauth2-state", "xyz")] rfl

/-- Claim C6: a `complete-oauth url` with no preceding phase 1 leaves the
pairing state unchanged and calls the factory with the `null` kind and a
request whose session is the empty mapping; the coordinator itself raises
no error — the settlement of the command is exactly the collaborator's
own settlement of the completion call. -/
theorem c6_holds (dc : DeviceCollab) (url : String) :
    (_runDeviceCommand dc initialOAuthState (some "complete-oauth") (some url)).1
        = initialOAuthState ∧
    (_runDeviceCommand dc initialOAuthState (some "complete-oauth") (some url)).2.1 =
      [DeviceEffect.factoryCall none
        (some { httpVersion := "1.0", headers := [], rawHeaders := [], method := "GET",
                url := url, query := dc.upq url, session := [] })] ∧
    (_runDeviceCommand dc initialOAuthState (some "complete-oauth") (some url)).2.2
        = dc.completeRes := by
  simp [_runDeviceCommand, initialOAuthState, jsOptStr]

/-- Claim C7: an all-whitespace (or empty) line selects no handler and no
assistant-core call; a non-blank line not starting with the escape marker
is forwarded verbatim as the single `handleCommand` call; and a line
starting with the escape marker selects exactly one branch of the
meta-command chain (the dispatch is a function, and its result on such a
line is always a meta branch — including the UnknownCommand report for an
unrecognised second character). -/
theorem c7_holds (line : String) :
    (line.data.all jsWhitespace = true → onLineDispatch line = Dispatch.nop) ∧
    (line.data.all jsWhitespace = false → charAt line 0 ≠ some '\\' →
      onLineDispatch line = Dispatch.handleCommand line) ∧
    (charAt line 0 = some '\\' → isMetaBranch (onLineDispatch line) = true) := by
  refine ⟨?_, ?_, ?_⟩
  · intro h
    have h0 : ¬ charAt line 0 = some '\\' := by
      intro hc
      have hw := all_ws_head line.data h '\\' hc
      simp [jsWhitespace] at hw
    unfold onLineDispatch
    rw [if_neg h0, if_pos h]
  · intro h1 h2
    unfold onLineDispatch
    rw [if_neg h2, if_neg (by simp [h1])]
  · intro h
    unfold onLineDispatch
    rw [if_pos h]
    repeat' split
    all_goals rfl

/-- Witness for C7 at concrete inputs: a blank line is a no-op, a plain
sentence goes verbatim to `handleCommand`, and an escape line selects a
meta branch. -/
theorem c7_witness :
    onLineDispatch "   " = Dispatch.nop ∧
    onLineDispatch "hello world" = Dispatch.handleCommand "hello world" ∧
    isMetaBranch (onLineDispatch "\\q") = true :=
  ⟨(c7_holds "   ").1 (by decide),
   (c7_holds "hello world").2.1 (by decide) (by decide),
   (c7_holds "\\q").2.2 (by decide)⟩

/-- Claim C8: a `\c` line whose argument parses to the integer N (within
the exactly-representable JS range) forwards to `handleParsedCommand`
exactly the JSON serialization of `{answer: {type: "Choice", value: N}}`. -/
theorem c8_holds (s : String) (N : Int) (h1 : parseIntJS s = JSNum.num N)
    (h2 : N.natAbs < 2 ^ 53) :
    onLineDispatch ("\\c " ++ s) = Dispatch.handleParsedCommand (choiceJSON N) := by
  obtain ⟨d⟩ := s
  have e0 : charAt ("\\c " ++ String.mk d) 0 = some '\\' := rfl
  have e1 : charAt ("\\c " ++ String.mk d) 1 = some 'c' := rfl
  have ehelp : ¬ (charAt ("\\c " ++ String.mk d) 1 = some '?' ∨ ("\\c " ++ String.mk d) = "h") := by
    rintro (hx | hx)
    · rw [e1] at hx
      exact absurd hx (by decide)
    · have hd : ('\\' :: 'c' :: ' ' :: d) = ['h'] := congrArg String.data hx
      injection hd with ha _
      exact absurd ha (by decide)
  unfold onLineDispatch
  rw [if_pos e0]
  rw [if_neg (by rw [e1]; decide)]
  rw [if_neg ehelp]
  rw [if_neg (by rw [e1]; decide)]
  rw [if_neg (by rw [e1]; decide)]
  rw [if_pos e1]
  have esub : substrFrom ("\\c " ++ String.mk d) 3 = String.mk d := rfl
  rw [esub, h1]
  rfl

/-- Witness for C8 at a concrete input. -/
theorem c8_witness :
    onLineDispatch "\\c 3" = Dispatch.handleParsedCommand (choiceJSON 3) :=
  c8_holds "3" 3 (by decide) (by decide)

/-- Claim C9: `app stop id` with no matching app prints the
`No app with ID` message and performs no `removeApp` call; with a matching
app it performs exactly the `removeApp` call on that app. -/
theorem c9_holds (apps : List AppRec) (id : String) :
    (getApp apps (some id) = none →
      _runAppCommand apps (some "stop") (some id)
        = [AppEffect.printLine ("No app with ID " ++ id)]) ∧
    (∀ a : AppRec, getApp apps (some id) = some a →
      _runAppCommand apps (some "stop") (some id) = [AppEffect.removeApp a]) ∧
    (∀ a : AppRec, getApp apps (some id) = none →
      AppEffect.removeApp a ∉ _runAppCommand apps (some "stop") (some id)) := by
  refine ⟨?_, ?_, ?_⟩
  · intro h
    simp [_runAppCommand, h, jsOptStr]
  · intro a h
    simp [_runAppCommand, h]
  · intro a h hmem
    simp [_runAppCommand, h, jsOptStr] at hmem

/-- Witness for C9 at concrete inputs: a missing id is reported and leaves
the app set alone; a present id is removed. -/
theorem c9_witness :
    _runAppCommand [⟨"app-1", "Demo", "demo app"⟩] (some "stop") (some "missing")
        = [AppEffect.printLine "No app with ID missing"] ∧
    _runAppCommand [⟨"app-1", "Demo", "demo app"⟩] (some "stop") (some "app-1")
        = [AppEffect.removeApp ⟨"app-1", "Demo", "demo app"⟩] :=
  ⟨(c9_holds [⟨"app-1", "Demo", "demo app"⟩] "missing").1 (by decide),
   (c9_holds [⟨"app-1", "Demo", "demo app"⟩] "app-1").2.1 ⟨"app-1", "Demo", "demo app"⟩ (by decide)⟩

/-- Claim C10: among escape lines only a second character `?` reaches the
help branch — the help condition's second disjunct compares the whole line
to `"h"`, which no escape line satisfies — so `\h` is reported as
`Unknown command h` even though the help text advertises both `\?` and
`\h`; the bare line `h` goes down the natural-language path instead. -/
theorem c10_holds (line : String) (h : charAt line 0 = some '\\') :
    (onLineDispatch line = Dispatch.help ↔ charAt line 1 = some '?') ∧
    onLineDispatch "\\h" = Dispatch.unknownCommand (some 'h') ∧
    unknownCommandMessage (some 'h') = "Unknown command h" ∧
    "\\? or \\h : show this help" ∈ helpLines ∧
    onLineDispatch "h" = Dispatch.handleCommand "h" := by
  refine ⟨?_, by decide, by decide, by decide, by decide⟩
  unfold onLineDispatch
  rw [if_pos h]
  by_cases hq : charAt line 1 = some 'q'
  · rw [if_pos hq]
    constructor
    · intro hcontra
      exact absurd hcontra (by decide)
    · intro hq2
      rw [hq] at hq2
      exact absurd hq2 (by decide)
  · rw [if_neg hq]
    by_cases hh : charAt line 1 = some '?' ∨ line = "h"
    · rw [if_pos hh]
      rcases hh with h1 | h2
      · simp [h1]
      · exfalso
        rw [h2] at h
        exact absurd h (by decide)
    · rw [if_neg hh]
      have hA : ¬ charAt line 1 = some '?' := fun a => hh (Or.inl a)
      refine iff_of_false ?_ hA
      intro hcontra
      revert hcontra
      repeat' split
      all_goals simp

/-- Witness for C10 at the concrete input that matters: the line `\h`. -/
theorem c10_witness :
    (onLineDispatch "\\h" = Dispatch.help ↔ charAt "\\h" 1 = some '?') ∧
    onLineDispatch "\\h" = Dispatch.unknownCommand (some 'h') ∧
    unknownCommandMessage (some 'h') = "Unknown command h" ∧
    "\\? or \\h : show this help" ∈ helpLines ∧
    onLineDispatch "h" = Dispatch.handleCommand "h" :=
  c10_holds "\\h" (by decide)

end ClaimTheorems
